import Mathlib

/-!
Shallow embedding of `src/plugins/inventory/netcup.py` (the `InventoryModule`
inventory plugin): the server-record data model, the host-naming computation of
`_parse_server`, the inventory-sink operations it issues, and the driver logic
of `parse` after a successful listing call.

Naming note: the configuration option `hostname_prefix` is embedded under the
field name `hostnamePre`; all other option names are kept.
-/

/-- A value stored in an inventory variable (the source copies strings and the
boolean `rebootRecommended` flag verbatim). -/
inductive Value where
  | str (s : String)
  | bool (b : Bool)
deriving DecidableEq, Repr

/-- A server detail record as returned by `getVServerInformation`, restricted to
the fields `_parse_server` reads: `vServerName`, `vServerNickname`, `status`,
`ips`, `rebootRecommended`. -/
structure ServerData where
  vServerName : String
  vServerNickname : String
  status : String
  ips : List String
  rebootRecommended : Bool
deriving DecidableEq, Repr

/-- The configuration options `_parse_server` and `parse` read via
`get_option`: `hostname_prefix` (field `hostnamePre`), `hostname_suffix`,
`ansible_host_type`, `ansible_host_suffix`, `group`. -/
structure Options where
  hostnamePre : String
  hostname_suffix : String
  ansible_host_type : String
  ansible_host_suffix : String
  group : String
deriving DecidableEq, Repr

/-- One mutation of the Ansible inventory sink, as invoked by the plugin:
`self.inventory.add_group / add_host / set_variable / add_child`. -/
inductive SinkOp where
  | addGroup (g : String)
  | addHost (h : String)
  | setVariable (h : String) (k : String) (v : Value)
  | addChild (g : String) (h : String)
deriving DecidableEq, Repr

/-- Lines 194-203 of `_parse_server`: start from `hostname_prefix`, append the
nickname when `len(vServerNickname) > 0` and otherwise `vServerName`, then
append `hostname_suffix`. -/
def computedServername (opts : Options) (s : ServerData) : String :=
  let servername := opts.hostnamePre
  let servername :=
    if s.vServerNickname.length > 0 then
      servername ++ s.vServerNickname
    else
      servername ++ s.vServerName
  servername ++ opts.hostname_suffix

/-- Errors arising in the embedded fragment: the Python `IndexError` from
`server_data['ips'][0]` on an empty list, and `AnsibleParserError` raised by
`parse`. -/
inductive NetcupError where
  | indexError
  | parserError (msg : String)
deriving DecidableEq, Repr

/-- Lines 205-239 of `_parse_server`: for an online record, emit `add_host`,
then the `match` on `ansible_host_type` (cases `'ip'`, `'name'`, `'suffix'`,
and no default case: any other mode falls through without effect), then the
four `netcup_`-namespaced variables in the insertion order of `server_vars`,
then `add_child`. Returns the sink operations performed, paired with the error
aborting the record (if any): evaluating `server_data['ips'][0]` on an empty
`ips` raises before the enclosing `set_variable` call, so on that path only
`add_host` has been performed. A non-online record does nothing. -/
def parseServer (opts : Options) (s : ServerData) : List SinkOp × Option NetcupError :=
  let servername := computedServername opts s
  if s.status = "online" then
    let addrStep : List SinkOp × Option NetcupError :=
      if opts.ansible_host_type = "ip" then
        match s.ips.head? with
        | some ip0 => ([SinkOp.setVariable servername "ansible_host" (Value.str ip0)], none)
        | none => ([], some NetcupError.indexError)
      else if opts.ansible_host_type = "name" then
        ([SinkOp.setVariable servername "ansible_host" (Value.str servername)], none)
      else if opts.ansible_host_type = "suffix" then
        match s.ips.head? with
        | some ip0 => ([SinkOp.setVariable servername "ansible_host" (Value.str ip0)], none)
        | none => ([], some NetcupError.indexError)
      else
        ([], none)
    match addrStep with
    | (ops, some e) => (SinkOp.addHost servername :: ops, some e)
    | (ops, none) =>
        (SinkOp.addHost servername :: ops ++
          [SinkOp.setVariable servername "netcup_server_name" (Value.str s.vServerName),
           SinkOp.setVariable servername "netcup_server_nickname" (Value.str s.vServerNickname),
           SinkOp.setVariable servername "netcup_reboot_recommended" (Value.bool s.rebootRecommended),
           SinkOp.setVariable servername "netcup_status" (Value.str s.status),
           SinkOp.addChild opts.group servername], none)
  else
    ([], none)

/-- The inventory sink: groups and hosts in insertion order (duplicates
ignored, as Ansible's `add_group`/`add_host` return the existing object),
host variables as a write log (later writes shadow earlier ones, as dict
assignment does), and group-child memberships. -/
structure Inventory where
  groups : List String
  hosts : List String
  hostvars : List (String × String × Value)
  children : List (String × String)
deriving DecidableEq, Repr

def Inventory.empty : Inventory := ⟨[], [], [], []⟩

def Inventory.add_group (inv : Inventory) (g : String) : Inventory :=
  if inv.groups.contains g then inv else { inv with groups := inv.groups ++ [g] }

def Inventory.add_host (inv : Inventory) (h : String) : Inventory :=
  if inv.hosts.contains h then inv else { inv with hosts := inv.hosts ++ [h] }

def Inventory.set_variable (inv : Inventory) (h k : String) (v : Value) : Inventory :=
  { inv with hostvars := inv.hostvars ++ [(h, k, v)] }

def Inventory.add_child (inv : Inventory) (g h : String) : Inventory :=
  if inv.children.contains (g, h) then inv else { inv with children := inv.children ++ [(g, h)] }

/-- The effective value of variable `k` on host `h`: the last write wins. -/
def Inventory.getVar (inv : Inventory) (h k : String) : Option Value :=
  (inv.hostvars.reverse.find? (fun e => e.1 == h && e.2.1 == k)).map (fun e => e.2.2)

def applyOp (inv : Inventory) : SinkOp → Inventory
  | SinkOp.addGroup g => inv.add_group g
  | SinkOp.addHost h => inv.add_host h
  | SinkOp.setVariable h k v => inv.set_variable h k v
  | SinkOp.addChild g h => inv.add_child g h

def applyOps (inv : Inventory) (ops : List SinkOp) : Inventory :=
  ops.foldl applyOp inv

/-- The per-record loop at the end of `parse`: process each record with
`_parse_server` in input order; an error aborts the remaining batch with the
sink keeping the mutations already performed (fail-fast, no rollback). -/
def buildRecords (opts : Options) (records : List ServerData) (inv : Inventory) :
    Inventory × Option NetcupError :=
  match records with
  | [] => (inv, none)
  | r :: rest =>
      match parseServer opts r with
      | (ops, some e) => (applyOps inv ops, some e)
      | (ops, none) => buildRecords opts rest (applyOps inv ops)

/-- Lines 262-272 of `parse`, after the listing call returned `records`:
`if not server_list` (an empty list is falsy) raises `AnsibleParserError`,
as does the redundant `len(server_list) == 0` check; otherwise the group is
added and every record is processed. -/
def parseDriver (opts : Options) (records : List ServerData) (inv : Inventory) :
    Inventory × Option NetcupError :=
  if records.isEmpty then
    (inv, some (NetcupError.parserError "Did not receive a server list from Webservice."))
  else if records.length = 0 then
    (inv, some (NetcupError.parserError "Empty server list"))
  else
    buildRecords opts records (inv.add_group opts.group)

/-- The computed display names of the online records, in input order. -/
def onlineNames (opts : Options) (records : List ServerData) : List String :=
  (records.filter (fun s => s.status == "online")).map (computedServername opts)
section Helpers

variable (opts : Options) (s : ServerData)

/-- A non-online record performs no sink operation and raises nothing. -/
theorem parseServer_offline (hs : s.status ≠ "online") :
    parseServer opts s = ([], none) := by
  simp [parseServer, hs]

/-- Shape of the operations for an online record in `'ip'` mode with a
non-empty IP list. -/
theorem parseServer_online_ip (hs : s.status = "online")
    (hm : opts.ansible_host_type = "ip") (ip0 : String) (rest : List String)
    (hips : s.ips = ip0 :: rest) :
    parseServer opts s =
      ([SinkOp.addHost (computedServername opts s),
        SinkOp.setVariable (computedServername opts s) "ansible_host" (Value.str ip0),
        SinkOp.setVariable (computedServername opts s) "netcup_server_name" (Value.str s.vServerName),
        SinkOp.setVariable (computedServername opts s) "netcup_server_nickname" (Value.str s.vServerNickname),
        SinkOp.setVariable (computedServername opts s) "netcup_reboot_recommended" (Value.bool s.rebootRecommended),
        SinkOp.setVariable (computedServername opts s) "netcup_status" (Value.str s.status),
        SinkOp.addChild opts.group (computedServername opts s)], none) := by
  simp [parseServer, hs, hm, hips]

theorem parseServer_online_name (hs : s.status = "online")
    (hm : opts.ansible_host_type = "name") :
    parseServer opts s =
      ([SinkOp.addHost (computedServername opts s),
        SinkOp.setVariable (computedServername opts s) "ansible_host" (Value.str (computedServername opts s)),
        SinkOp.setVariable (computedServername opts s) "netcup_server_name" (Value.str s.vServerName),
        SinkOp.setVariable (computedServername opts s) "netcup_server_nickname" (Value.str s.vServerNickname),
        SinkOp.setVariable (computedServername opts s) "netcup_reboot_recommended" (Value.bool s.rebootRecommended),
        SinkOp.setVariable (computedServername opts s) "netcup_status" (Value.str s.status),
        SinkOp.addChild opts.group (computedServername opts s)], none) := by
  by_cases hip : opts.ansible_host_type = "ip"
  · rw [hip] at hm; exact absurd hm (by decide)
  · simp [parseServer, hs, hm, hip]

theorem parseServer_online_suffix (hs : s.status = "online")
    (hm : opts.ansible_host_type = "suffix") (ip0 : String) (rest : List String)
    (hips : s.ips = ip0 :: rest) :
    parseServer opts s =
      ([SinkOp.addHost (computedServername opts s),
        SinkOp.setVariable (computedServername opts s) "ansible_host" (Value.str ip0),
        SinkOp.setVariable (computedServername opts s) "netcup_server_name" (Value.str s.vServerName),
        SinkOp.setVariable (computedServername opts s) "netcup_server_nickname" (Value.str s.vServerNickname),
        SinkOp.setVariable (computedServername opts s) "netcup_reboot_recommended" (Value.bool s.rebootRecommended),
        SinkOp.setVariable (computedServername opts s) "netcup_status" (Value.str s.status),
        SinkOp.addChild opts.group (computedServername opts s)], none) := by
  have hip : opts.ansible_host_type ≠ "ip" := by rw [hm]; decide
  have hname : opts.ansible_host_type ≠ "name" := by rw [hm]; decide
  simp [parseServer, hs, hm, hip, hname, hips]

/-- An unrecognized mode falls through the `match` silently: no
connection-address variable, no error. -/
theorem parseServer_online_other (hs : s.status = "online")
    (h1 : opts.ansible_host_type ≠ "ip") (h2 : opts.ansible_host_type ≠ "name")
    (h3 : opts.ansible_host_type ≠ "suffix") :
    parseServer opts s =
      ([SinkOp.addHost (computedServername opts s),
        SinkOp.setVariable (computedServername opts s) "netcup_server_name" (Value.str s.vServerName),
        SinkOp.setVariable (computedServername opts s) "netcup_server_nickname" (Value.str s.vServerNickname),
        SinkOp.setVariable (computedServername opts s) "netcup_reboot_recommended" (Value.bool s.rebootRecommended),
        SinkOp.setVariable (computedServername opts s) "netcup_status" (Value.str s.status),
        SinkOp.addChild opts.group (computedServername opts s)], none) := by
  simp [parseServer, hs, h1, h2, h3]

/-- In `'ip'` mode an online record with an empty IP list aborts with the
index error right after `add_host`. -/
theorem parseServer_online_ip_noips (hs : s.status = "online")
    (hm : opts.ansible_host_type = "ip") (hips : s.ips = []) :
    parseServer opts s =
      ([SinkOp.addHost (computedServername opts s)], some NetcupError.indexError) := by
  simp [parseServer, hs, hm, hips]

theorem parseServer_online_suffix_noips (hs : s.status = "online")
    (hm : opts.ansible_host_type = "suffix") (hips : s.ips = []) :
    parseServer opts s =
      ([SinkOp.addHost (computedServername opts s)], some NetcupError.indexError) := by
  have hip : opts.ansible_host_type ≠ "ip" := by rw [hm]; decide
  have hname : opts.ansible_host_type ≠ "name" := by rw [hm]; decide
  simp [parseServer, hs, hm, hip, hname, hips]

end Helpers

section GetVarLemmas

theorem getVar_set_variable_same (inv : Inventory) (h k : String) (v : Value) :
    (inv.set_variable h k v).getVar h k = some v := by
  simp [Inventory.set_variable, Inventory.getVar]

theorem getVar_set_variable_ne (inv : Inventory) (h k h' k' : String) (v : Value)
    (hne : ¬(h' = h ∧ k' = k)) :
    (inv.set_variable h' k' v).getVar h k = inv.getVar h k := by
  simp only [Inventory.set_variable, Inventory.getVar, List.reverse_append,
    List.reverse_cons, List.reverse_nil, List.nil_append, List.singleton_append]
  rw [List.find?_cons_of_neg]
  simp only [Bool.and_eq_true, beq_iff_eq]
  exact fun hc => hne ⟨hc.1, hc.2⟩

theorem getVar_add_host (inv : Inventory) (h k hh : String) :
    (inv.add_host hh).getVar h k = inv.getVar h k := by
  simp only [Inventory.add_host, Inventory.getVar]
  split <;> rfl

theorem getVar_add_child (inv : Inventory) (h k g hh : String) :
    (inv.add_child g hh).getVar h k = inv.getVar h k := by
  simp only [Inventory.add_child, Inventory.getVar]
  split <;> rfl

theorem getVar_add_group (inv : Inventory) (h k g : String) :
    (inv.add_group g).getVar h k = inv.getVar h k := by
  simp only [Inventory.add_group, Inventory.getVar]
  split <;> rfl

end GetVarLemmas
section ClaimC2

/-- C2: for every record and options, the computed display name is the plain
concatenation of the `hostname_prefix` option, the nickname when it is
non-empty and otherwise `vServerName`, and the `hostname_suffix` option, with
no separators inserted. -/
theorem C2_computed_name_concat (opts : Options) (s : ServerData) :
    computedServername opts s =
      opts.hostnamePre ++
        (if s.vServerNickname = "" then s.vServerName else s.vServerNickname) ++
        opts.hostname_suffix := by
  by_cases h : s.vServerNickname = ""
  · simp [computedServername, h]
  · have hlen : s.vServerNickname.length > 0 := by
      cases hn : s.vServerNickname with
      | mk data =>
          cases data with
          | nil => exact absurd hn (by simpa using h)
          | cons c cs => simp [String.length, hn]
    simp [computedServername, h, hlen]

end ClaimC2

section ClaimC3

/-- C3: processing a record whose status is not "online" performs no side
effect on the sink (no host, no variable, no membership) and raises no
error. -/
theorem C3_non_online_skipped (opts : Options) (s : ServerData) (inv : Inventory)
    (hs : s.status ≠ "online") :
    applyOps inv (parseServer opts s).1 = inv ∧ (parseServer opts s).2 = none := by
  rw [parseServer_offline opts s hs]
  exact ⟨rfl, rfl⟩

theorem C3_non_online_skipped_witness :
    applyOps Inventory.empty
        (parseServer ⟨"", "", "ip", "", "netcup"⟩ ⟨"v2", "web", "offline", ["5.6.7.8"], false⟩).1 =
      Inventory.empty ∧
    (parseServer ⟨"", "", "ip", "", "netcup"⟩ ⟨"v2", "web", "offline", ["5.6.7.8"], false⟩).2 = none :=
  C3_non_online_skipped ⟨"", "", "ip", "", "netcup"⟩ ⟨"v2", "web", "offline", ["5.6.7.8"], false⟩
    Inventory.empty (by decide)

end ClaimC3

section ClaimC6

/-- C6: on an empty listing the driver raises the fatal empty-result parser
error before touching the inventory, while the per-record builder itself
accepts an empty record list and emits nothing without error. -/
theorem C6_empty_listing_driver_error (opts : Options) (inv : Inventory) :
    parseDriver opts [] inv =
      (inv, some (NetcupError.parserError "Did not receive a server list from Webservice.")) ∧
    buildRecords opts [] inv = (inv, none) :=
  ⟨rfl, rfl⟩

end ClaimC6

section ClaimC1

/-- C1 counterexample: with the unsupported mode "bogus", processing an online
record does not fail: no error is raised, the host is added, the four
namespaced variables are set and the host joins the group, with no
connection-address variable — the run proceeds silently instead of aborting
with an invalid-mode error. -/
theorem C1_counterexample_bogus_mode_silent :
    parseServer ⟨"", "", "bogus", "", "netcup"⟩ ⟨"v1", "", "online", ["1.2.3.4"], false⟩ =
      ([SinkOp.addHost "v1",
        SinkOp.setVariable "v1" "netcup_server_name" (Value.str "v1"),
        SinkOp.setVariable "v1" "netcup_server_nickname" (Value.str ""),
        SinkOp.setVariable "v1" "netcup_reboot_recommended" (Value.bool false),
        SinkOp.setVariable "v1" "netcup_status" (Value.str "online"),
        SinkOp.addChild "netcup" "v1"], none) := by
  decide

/-- C1 amended: for every address-selection mode that is none of "ip", "name",
"suffix", the `match` in `_parse_server` falls through silently on an online
record: no error is raised and no connection-address variable is set, while the
host is still added, the four namespaced variables are set, and the host is
added to the group. (Unsupported modes are screened out earlier by the
framework's declared option choices, not by this step.) -/
theorem C1_amended_bogus_mode_falls_through (opts : Options) (s : ServerData)
    (h1 : opts.ansible_host_type ≠ "ip") (h2 : opts.ansible_host_type ≠ "name")
    (h3 : opts.ansible_host_type ≠ "suffix") (hs : s.status = "online") :
    parseServer opts s =
      ([SinkOp.addHost (computedServername opts s),
        SinkOp.setVariable (computedServername opts s) "netcup_server_name" (Value.str s.vServerName),
        SinkOp.setVariable (computedServername opts s) "netcup_server_nickname" (Value.str s.vServerNickname),
        SinkOp.setVariable (computedServername opts s) "netcup_reboot_recommended" (Value.bool s.rebootRecommended),
        SinkOp.setVariable (computedServername opts s) "netcup_status" (Value.str s.status),
        SinkOp.addChild opts.group (computedServername opts s)], none) :=
  parseServer_online_other opts s hs h1 h2 h3

theorem C1_amended_bogus_mode_falls_through_witness :
    parseServer ⟨"p.", ".lan", "bogus", "", "g1"⟩ ⟨"v7", "db", "online", [], true⟩ =
      ([SinkOp.addHost "p.db.lan",
        SinkOp.setVariable "p.db.lan" "netcup_server_name" (Value.str "v7"),
        SinkOp.setVariable "p.db.lan" "netcup_server_nickname" (Value.str "db"),
        SinkOp.setVariable "p.db.lan" "netcup_reboot_recommended" (Value.bool true),
        SinkOp.setVariable "p.db.lan" "netcup_status" (Value.str "online"),
        SinkOp.addChild "g1" "p.db.lan"], none) := by
  have h := C1_amended_bogus_mode_falls_through ⟨"p.", ".lan", "bogus", "", "g1"⟩
    ⟨"v7", "db", "online", [], true⟩ (by decide) (by decide) (by decide) (by decide)
  simpa [computedServername] using h

end ClaimC1
section ClaimC4

/-- C4: for an online record with a primary IP, the effective
connection-address variable on the computed host equals the primary IP in
"ip" mode, the computed display name in "name" mode, and the primary IP in
"suffix" mode. -/
theorem C4_connection_address_by_mode (opts : Options) (s : ServerData)
    (inv : Inventory) (ip0 : String) (rest : List String)
    (hs : s.status = "online") (hips : s.ips = ip0 :: rest) :
    (opts.ansible_host_type = "ip" →
      (applyOps inv (parseServer opts s).1).getVar (computedServername opts s) "ansible_host" =
        some (Value.str ip0)) ∧
    (opts.ansible_host_type = "name" →
      (applyOps inv (parseServer opts s).1).getVar (computedServername opts s) "ansible_host" =
        some (Value.str (computedServername opts s))) ∧
    (opts.ansible_host_type = "suffix" →
      (applyOps inv (parseServer opts s).1).getVar (computedServername opts s) "ansible_host" =
        some (Value.str ip0)) := by
  refine ⟨fun hm => ?_, fun hm => ?_, fun hm => ?_⟩
  · rw [parseServer_online_ip opts s hs hm ip0 rest hips]
    simp only [applyOps, List.foldl, applyOp]
    rw [getVar_add_child, getVar_set_variable_ne, getVar_set_variable_ne,
      getVar_set_variable_ne, getVar_set_variable_ne, getVar_set_variable_same]
    all_goals simp
  · rw [parseServer_online_name opts s hs hm]
    simp only [applyOps, List.foldl, applyOp]
    rw [getVar_add_child, getVar_set_variable_ne, getVar_set_variable_ne,
      getVar_set_variable_ne, getVar_set_variable_ne, getVar_set_variable_same]
    all_goals simp
  · rw [parseServer_online_suffix opts s hs hm ip0 rest hips]
    simp only [applyOps, List.foldl, applyOp]
    rw [getVar_add_child, getVar_set_variable_ne, getVar_set_variable_ne,
      getVar_set_variable_ne, getVar_set_variable_ne, getVar_set_variable_same]
    all_goals simp

theorem C4_connection_address_by_mode_witness :
    ((⟨"", "", "ip", "", "netcup"⟩ : Options).ansible_host_type = "ip" →
      (applyOps Inventory.empty
          (parseServer ⟨"", "", "ip", "", "netcup"⟩ ⟨"v1", "", "online", ["1.2.3.4"], false⟩).1).getVar
          (computedServername ⟨"", "", "ip", "", "netcup"⟩ ⟨"v1", "", "online", ["1.2.3.4"], false⟩)
          "ansible_host" = some (Value.str "1.2.3.4")) ∧
    ((⟨"", "", "ip", "", "netcup"⟩ : Options).ansible_host_type = "name" →
      (applyOps Inventory.empty
          (parseServer ⟨"", "", "ip", "", "netcup"⟩ ⟨"v1", "", "online", ["1.2.3.4"], false⟩).1).getVar
          (computedServername ⟨"", "", "ip", "", "netcup"⟩ ⟨"v1", "", "online", ["1.2.3.4"], false⟩)
          "ansible_host" =
        some (Value.str (computedServername ⟨"", "", "ip", "", "netcup"⟩
          ⟨"v1", "", "online", ["1.2.3.4"], false⟩))) ∧
    ((⟨"", "", "ip", "", "netcup"⟩ : Options).ansible_host_type = "suffix" →
      (applyOps Inventory.empty
          (parseServer ⟨"", "", "ip", "", "netcup"⟩ ⟨"v1", "", "online", ["1.2.3.4"], false⟩).1).getVar
          (computedServername ⟨"", "", "ip", "", "netcup"⟩ ⟨"v1", "", "online", ["1.2.3.4"], false⟩)
          "ansible_host" = some (Value.str "1.2.3.4")) :=
  C4_connection_address_by_mode ⟨"", "", "ip", "", "netcup"⟩
    ⟨"v1", "", "online", ["1.2.3.4"], false⟩ Inventory.empty "1.2.3.4" [] (by decide) (by decide)

end ClaimC4

section ClaimC7

/-- C7: for an online record processed without error under one of the three
supported modes, the sink operations happen in exactly this order: add host;
set the connection-address variable; set `netcup_server_name`,
`netcup_server_nickname`, `netcup_reboot_recommended`, `netcup_status` copied
verbatim from the record; add the host as a child of the configured group. -/
theorem C7_sink_effect_order (opts : Options) (s : ServerData)
    (hs : s.status = "online")
    (hm : opts.ansible_host_type = "ip" ∨ opts.ansible_host_type = "name" ∨
      opts.ansible_host_type = "suffix")
    (hok : (parseServer opts s).2 = none) :
    ∃ addr : Value,
      (parseServer opts s).1 =
        [SinkOp.addHost (computedServername opts s),
         SinkOp.setVariable (computedServername opts s) "ansible_host" addr,
         SinkOp.setVariable (computedServername opts s) "netcup_server_name" (Value.str s.vServerName),
         SinkOp.setVariable (computedServername opts s) "netcup_server_nickname" (Value.str s.vServerNickname),
         SinkOp.setVariable (computedServername opts s) "netcup_reboot_recommended" (Value.bool s.rebootRecommended),
         SinkOp.setVariable (computedServername opts s) "netcup_status" (Value.str s.status),
         SinkOp.addChild opts.group (computedServername opts s)] := by
  rcases hm with hm | hm | hm
  · cases hips : s.ips with
    | nil =>
        rw [parseServer_online_ip_noips opts s hs hm hips] at hok
        exact absurd hok (by simp)
    | cons ip0 rest =>
        exact ⟨Value.str ip0, by rw [parseServer_online_ip opts s hs hm ip0 rest hips]⟩
  · exact ⟨Value.str (computedServername opts s), by rw [parseServer_online_name opts s hs hm]⟩
  · cases hips : s.ips with
    | nil =>
        rw [parseServer_online_suffix_noips opts s hs hm hips] at hok
        exact absurd hok (by simp)
    | cons ip0 rest =>
        exact ⟨Value.str ip0, by rw [parseServer_online_suffix opts s hs hm ip0 rest hips]⟩

theorem C7_sink_effect_order_witness :
    ∃ addr : Value,
      (parseServer ⟨"", "", "ip", "", "netcup"⟩ ⟨"v1", "", "online", ["1.2.3.4"], false⟩).1 =
        [SinkOp.addHost (computedServername ⟨"", "", "ip", "", "netcup"⟩ ⟨"v1", "", "online", ["1.2.3.4"], false⟩),
         SinkOp.setVariable (computedServername ⟨"", "", "ip", "", "netcup"⟩ ⟨"v1", "", "online", ["1.2.3.4"], false⟩)
           "ansible_host" addr,
         SinkOp.setVariable (computedServername ⟨"", "", "ip", "", "netcup"⟩ ⟨"v1", "", "online", ["1.2.3.4"], false⟩)
           "netcup_server_name" (Value.str "v1"),
         SinkOp.setVariable (computedServername ⟨"", "", "ip", "", "netcup"⟩ ⟨"v1", "", "online", ["1.2.3.4"], false⟩)
           "netcup_server_nickname" (Value.str ""),
         SinkOp.setVariable (computedServername ⟨"", "", "ip", "", "netcup"⟩ ⟨"v1", "", "online", ["1.2.3.4"], false⟩)
           "netcup_reboot_recommended" (Value.bool false),
         SinkOp.setVariable (computedServername ⟨"", "", "ip", "", "netcup"⟩ ⟨"v1", "", "online", ["1.2.3.4"], false⟩)
           "netcup_status" (Value.str "online"),
         SinkOp.addChild "netcup"
           (computedServername ⟨"", "", "ip", "", "netcup"⟩ ⟨"v1", "", "online", ["1.2.3.4"], false⟩)] :=
  C7_sink_effect_order ⟨"", "", "ip", "", "netcup"⟩ ⟨"v1", "", "online", ["1.2.3.4"], false⟩
    (by decide) (Or.inl (by decide)) (by decide)

end ClaimC7

section ClaimC9

/-- C9: in "ip" or "suffix" mode the first IP is read unguarded: for an online
record with a non-empty IP list processing succeeds, while with an empty IP
list it aborts with the index error after the host has already been added to
the sink and nothing else has been written (partial mutation). -/
theorem C9_unguarded_primary_ip (opts : Options) (s : ServerData) (inv : Inventory)
    (hs : s.status = "online")
    (hm : opts.ansible_host_type = "ip" ∨ opts.ansible_host_type = "suffix") :
    (s.ips ≠ [] → (parseServer opts s).2 = none) ∧
    (s.ips = [] →
      (parseServer opts s).2 = some NetcupError.indexError ∧
      applyOps inv (parseServer opts s).1 = inv.add_host (computedServername opts s)) := by
  constructor
  · intro hne
    rcases List.exists_cons_of_ne_nil hne with ⟨ip0, rest, hips⟩
    rcases hm with hm | hm
    · rw [parseServer_online_ip opts s hs hm ip0 rest hips]
    · rw [parseServer_online_suffix opts s hs hm ip0 rest hips]
  · intro hnil
    rcases hm with hm | hm
    · rw [parseServer_online_ip_noips opts s hs hm hnil]
      exact ⟨rfl, rfl⟩
    · rw [parseServer_online_suffix_noips opts s hs hm hnil]
      exact ⟨rfl, rfl⟩

theorem C9_unguarded_primary_ip_witness :
    ((⟨"v9", "", "online", [], false⟩ : ServerData).ips ≠ [] →
      (parseServer ⟨"", "", "ip", "", "netcup"⟩ ⟨"v9", "", "online", [], false⟩).2 = none) ∧
    ((⟨"v9", "", "online", [], false⟩ : ServerData).ips = [] →
      (parseServer ⟨"", "", "ip", "", "netcup"⟩ ⟨"v9", "", "online", [], false⟩).2 =
        some NetcupError.indexError ∧
      applyOps Inventory.empty (parseServer ⟨"", "", "ip", "", "netcup"⟩ ⟨"v9", "", "online", [], false⟩).1 =
        Inventory.empty.add_host
          (computedServername ⟨"", "", "ip", "", "netcup"⟩ ⟨"v9", "", "online", [], false⟩)) :=
  C9_unguarded_primary_ip ⟨"", "", "ip", "", "netcup"⟩ ⟨"v9", "", "online", [], false⟩
    Inventory.empty (by decide) (Or.inl (by decide))

end ClaimC9

section ClaimC8

theorem parseServer_host_suffix_irrelevant (o : Options) (s1 s2 : String) (s : ServerData) :
    parseServer { o with ansible_host_suffix := s1 } s =
    parseServer { o with ansible_host_suffix := s2 } s := rfl

theorem buildRecords_host_suffix_irrelevant (o : Options) (s1 s2 : String)
    (records : List ServerData) (inv : Inventory) :
    buildRecords { o with ansible_host_suffix := s1 } records inv =
    buildRecords { o with ansible_host_suffix := s2 } records inv := by
  induction records generalizing inv with
  | nil => rfl
  | cons r rest ih =>
      rw [buildRecords, buildRecords, parseServer_host_suffix_irrelevant o s1 s2 r]
      cases parseServer { o with ansible_host_suffix := s2 } r with
      | mk ops err =>
          cases err with
          | none => exact ih _
          | some e => rfl

/-- C8: the `ansible_host_suffix` option is declared but never read: two
configurations differing only in its value drive the whole build to identical
sink contents and identical error outcome, in every mode. -/
theorem C8_ansible_host_suffix_no_effect (o : Options) (s1 s2 : String)
    (records : List ServerData) (inv : Inventory) :
    parseDriver { o with ansible_host_suffix := s1 } records inv =
    parseDriver { o with ansible_host_suffix := s2 } records inv := by
  cases records with
  | nil => rfl
  | cons r rest =>
      simp only [parseDriver, List.isEmpty_cons, List.length_cons]
      exact buildRecords_host_suffix_irrelevant o s1 s2 (r :: rest) _

end ClaimC8
section SinkComponentLemmas

theorem applyOps_cons (inv : Inventory) (op : SinkOp) (ops : List SinkOp) :
    applyOps inv (op :: ops) = applyOps (applyOp inv op) ops := rfl

theorem applyOps_append (inv : Inventory) (l1 l2 : List SinkOp) :
    applyOps inv (l1 ++ l2) = applyOps (applyOps inv l1) l2 :=
  List.foldl_append _ _ _ _

theorem hosts_set_variable (inv : Inventory) (h k : String) (v : Value) :
    (inv.set_variable h k v).hosts = inv.hosts := rfl

theorem children_set_variable (inv : Inventory) (h k : String) (v : Value) :
    (inv.set_variable h k v).children = inv.children := rfl

theorem groups_set_variable (inv : Inventory) (h k : String) (v : Value) :
    (inv.set_variable h k v).groups = inv.groups := rfl

theorem hosts_add_child (inv : Inventory) (g h : String) :
    (inv.add_child g h).hosts = inv.hosts := by
  unfold Inventory.add_child; split <;> rfl

theorem groups_add_child (inv : Inventory) (g h : String) :
    (inv.add_child g h).groups = inv.groups := by
  unfold Inventory.add_child; split <;> rfl

theorem children_add_host (inv : Inventory) (h : String) :
    (inv.add_host h).children = inv.children := by
  unfold Inventory.add_host; split <;> rfl

theorem groups_add_host (inv : Inventory) (h : String) :
    (inv.add_host h).groups = inv.groups := by
  unfold Inventory.add_host; split <;> rfl

theorem hosts_add_host_not_mem (inv : Inventory) (h : String) (hh : h ∉ inv.hosts) :
    (inv.add_host h).hosts = inv.hosts ++ [h] := by
  unfold Inventory.add_host
  rw [if_neg]
  simpa using hh

theorem hosts_add_host_mem (inv : Inventory) (h : String) (hh : h ∈ inv.hosts) :
    (inv.add_host h).hosts = inv.hosts := by
  unfold Inventory.add_host
  rw [if_pos]
  simpa using hh

theorem children_add_child_not_mem (inv : Inventory) (g h : String)
    (hc : (g, h) ∉ inv.children) :
    (inv.add_child g h).children = inv.children ++ [(g, h)] := by
  unfold Inventory.add_child
  rw [if_neg]
  simpa using hc

/-- A run of `set_variable` operations leaves hosts, children and groups
untouched. -/
theorem applyOps_setvars (inv : Inventory) (mid : List SinkOp)
    (hmid : ∀ op ∈ mid, ∃ h k v, op = SinkOp.setVariable h k v) :
    (applyOps inv mid).hosts = inv.hosts ∧
    (applyOps inv mid).children = inv.children ∧
    (applyOps inv mid).groups = inv.groups := by
  induction mid generalizing inv with
  | nil => exact ⟨rfl, rfl, rfl⟩
  | cons op rest ih =>
      rcases hmid op (by simp) with ⟨h, k, v, rfl⟩
      have hrest : ∀ op ∈ rest, ∃ h k v, op = SinkOp.setVariable h k v :=
        fun op hop => hmid op (by simp [hop])
      have := ih (inv.set_variable h k v) hrest
      rw [applyOps_cons]
      exact ⟨this.1, this.2.1, this.2.2⟩

end SinkComponentLemmas

section PerRecordLemmas

/-- Structure of the operations of a successfully processed online record:
`add_host`, then only `set_variable` operations, then `add_child` into the
configured group, all on the computed display name. -/
theorem parseServer_online_ok_shape (opts : Options) (s : ServerData)
    (hs : s.status = "online") (hok : (parseServer opts s).2 = none) :
    ∃ mid : List SinkOp,
      (∀ op ∈ mid, ∃ h k v, op = SinkOp.setVariable h k v) ∧
      (parseServer opts s).1 =
        SinkOp.addHost (computedServername opts s) ::
          (mid ++ [SinkOp.addChild opts.group (computedServername opts s)]) := by
  by_cases hip : opts.ansible_host_type = "ip"
  · cases hips : s.ips with
    | nil =>
        rw [parseServer_online_ip_noips opts s hs hip hips] at hok
        exact absurd hok (by simp)
    | cons ip0 rest =>
        refine ⟨[SinkOp.setVariable (computedServername opts s) "ansible_host" (Value.str ip0),
           SinkOp.setVariable (computedServername opts s) "netcup_server_name" (Value.str s.vServerName),
           SinkOp.setVariable (computedServername opts s) "netcup_server_nickname" (Value.str s.vServerNickname),
           SinkOp.setVariable (computedServername opts s) "netcup_reboot_recommended" (Value.bool s.rebootRecommended),
           SinkOp.setVariable (computedServername opts s) "netcup_status" (Value.str s.status)],
          ?_, by rw [parseServer_online_ip opts s hs hip ip0 rest hips]; rfl⟩
        intro op hop
        fin_cases hop <;> exact ⟨_, _, _, rfl⟩
  by_cases hname : opts.ansible_host_type = "name"
  · refine ⟨[SinkOp.setVariable (computedServername opts s) "ansible_host" (Value.str (computedServername opts s)),
           SinkOp.setVariable (computedServername opts s) "netcup_server_name" (Value.str s.vServerName),
           SinkOp.setVariable (computedServername opts s) "netcup_server_nickname" (Value.str s.vServerNickname),
           SinkOp.setVariable (computedServername opts s) "netcup_reboot_recommended" (Value.bool s.rebootRecommended),
           SinkOp.setVariable (computedServername opts s) "netcup_status" (Value.str s.status)],
      ?_, by rw [parseServer_online_name opts s hs hname]; rfl⟩
    intro op hop
    fin_cases hop <;> exact ⟨_, _, _, rfl⟩
  by_cases hsuf : opts.ansible_host_type = "suffix"
  · cases hips : s.ips with
    | nil =>
        rw [parseServer_online_suffix_noips opts s hs hsuf hips] at hok
        exact absurd hok (by simp)
    | cons ip0 rest =>
        refine ⟨[SinkOp.setVariable (computedServername opts s) "ansible_host" (Value.str ip0),
           SinkOp.setVariable (computedServername opts s) "netcup_server_name" (Value.str s.vServerName),
           SinkOp.setVariable (computedServername opts s) "netcup_server_nickname" (Value.str s.vServerNickname),
           SinkOp.setVariable (computedServername opts s) "netcup_reboot_recommended" (Value.bool s.rebootRecommended),
           SinkOp.setVariable (computedServername opts s) "netcup_status" (Value.str s.status)],
          ?_, by rw [parseServer_online_suffix opts s hs hsuf ip0 rest hips]; rfl⟩
        intro op hop
        fin_cases hop <;> exact ⟨_, _, _, rfl⟩
  · refine ⟨[SinkOp.setVariable (computedServername opts s) "netcup_server_name" (Value.str s.vServerName),
           SinkOp.setVariable (computedServername opts s) "netcup_server_nickname" (Value.str s.vServerNickname),
           SinkOp.setVariable (computedServername opts s) "netcup_reboot_recommended" (Value.bool s.rebootRecommended),
           SinkOp.setVariable (computedServername opts s) "netcup_status" (Value.str s.status)],
      ?_, by rw [parseServer_online_other opts s hs hip hname hsuf]; rfl⟩
    intro op hop
    fin_cases hop <;> exact ⟨_, _, _, rfl⟩

/-- Effect of one successfully processed online record whose computed name is
new to the sink: the name is appended to the hosts, the membership pair to the
children, and the groups are untouched. -/
theorem applyOps_online_fresh (opts : Options) (s : ServerData) (inv : Inventory)
    (hs : s.status = "online") (hok : (parseServer opts s).2 = none)
    (hh : computedServername opts s ∉ inv.hosts)
    (hc : (opts.group, computedServername opts s) ∉ inv.children) :
    (applyOps inv (parseServer opts s).1).hosts = inv.hosts ++ [computedServername opts s] ∧
    (applyOps inv (parseServer opts s).1).children =
      inv.children ++ [(opts.group, computedServername opts s)] ∧
    (applyOps inv (parseServer opts s).1).groups = inv.groups := by
  rcases parseServer_online_ok_shape opts s hs hok with ⟨mid, hmid, hshape⟩
  rw [hshape, applyOps_cons, applyOps_append]
  have hmidinv := applyOps_setvars ((applyOp inv (SinkOp.addHost (computedServername opts s)))) mid hmid
  have hchild : (applyOps (applyOp inv (SinkOp.addHost (computedServername opts s))) mid).children
      = inv.children := by
    rw [hmidinv.2.1]
    exact children_add_host inv _
  refine ⟨?_, ?_, ?_⟩
  · show ((applyOps _ mid).add_child _ _).hosts = _
    rw [hosts_add_child, hmidinv.1]
    exact hosts_add_host_not_mem inv _ hh
  · show ((applyOps _ mid).add_child _ _).children = _
    rw [children_add_child_not_mem _ _ _ (by rw [hchild]; exact hc), hchild]
  · show ((applyOps _ mid).add_child _ _).groups = _
    rw [groups_add_child, hmidinv.2.2]
    exact groups_add_host inv _

/-- Effect of one successfully processed online record whose computed name is
already a host of the sink: the hosts are unchanged. -/
theorem applyOps_online_seen (opts : Options) (s : ServerData) (inv : Inventory)
    (hs : s.status = "online") (hok : (parseServer opts s).2 = none)
    (hh : computedServername opts s ∈ inv.hosts) :
    (applyOps inv (parseServer opts s).1).hosts = inv.hosts := by
  rcases parseServer_online_ok_shape opts s hs hok with ⟨mid, hmid, hshape⟩
  rw [hshape, applyOps_cons, applyOps_append]
  have hmidinv := applyOps_setvars ((applyOp inv (SinkOp.addHost (computedServername opts s)))) mid hmid
  show ((applyOps _ mid).add_child _ _).hosts = _
  rw [hosts_add_child, hmidinv.1]
  exact hosts_add_host_mem inv _ hh

end PerRecordLemmas
section BuildLemmas

theorem buildRecords_nil (opts : Options) (inv : Inventory) :
    buildRecords opts [] inv = (inv, none) := rfl

theorem buildRecords_cons_ok (opts : Options) (r : ServerData) (rest : List ServerData)
    (inv : Inventory) (hok : (parseServer opts r).2 = none) :
    buildRecords opts (r :: rest) inv =
      buildRecords opts rest (applyOps inv (parseServer opts r).1) := by
  rcases hps : parseServer opts r with ⟨ops, err⟩
  rw [hps] at hok
  cases err with
  | none => simp only [buildRecords, hps]
  | some e => exact absurd hok (by simp)

theorem buildRecords_cons_ok_inv (opts : Options) (r : ServerData) (rest : List ServerData)
    (inv : Inventory) (hok : (buildRecords opts (r :: rest) inv).2 = none) :
    (parseServer opts r).2 = none ∧
    (buildRecords opts rest (applyOps inv (parseServer opts r).1)).2 = none := by
  rcases hps : parseServer opts r with ⟨ops, err⟩
  cases err with
  | none =>
      refine ⟨rfl, ?_⟩
      simp only [buildRecords, hps] at hok
      simpa [hps] using hok
  | some e =>
      simp only [buildRecords, hps] at hok
      exact absurd hok (by simp)

theorem onlineNames_nil (opts : Options) : onlineNames opts [] = [] := rfl

theorem onlineNames_cons_online (opts : Options) (r : ServerData) (rest : List ServerData)
    (hs : r.status = "online") :
    onlineNames opts (r :: rest) = computedServername opts r :: onlineNames opts rest := by
  simp [onlineNames, List.filter_cons, hs]

theorem onlineNames_cons_offline (opts : Options) (r : ServerData) (rest : List ServerData)
    (hs : r.status ≠ "online") :
    onlineNames opts (r :: rest) = onlineNames opts rest := by
  simp [onlineNames, List.filter_cons, hs]

/-- Main invariant of the per-record loop: on a successful run whose online
records have pairwise distinct computed names, all new to the sink, the loop
appends exactly one host per online record, one membership pair in the
configured group per online record, and never touches the groups. -/
theorem buildRecords_shape (opts : Options) (records : List ServerData) (inv : Inventory)
    (hdist : (onlineNames opts records).Nodup)
    (hdisj : ∀ n ∈ onlineNames opts records, n ∉ inv.hosts)
    (hch : ∀ n ∈ onlineNames opts records, (opts.group, n) ∉ inv.children)
    (hok : (buildRecords opts records inv).2 = none) :
    (buildRecords opts records inv).1.hosts = inv.hosts ++ onlineNames opts records ∧
    (buildRecords opts records inv).1.children =
      inv.children ++ (onlineNames opts records).map (fun n => (opts.group, n)) ∧
    (buildRecords opts records inv).1.groups = inv.groups := by
  induction records generalizing inv with
  | nil => simp [buildRecords_nil, onlineNames_nil]
  | cons r rest ih =>
      by_cases hs : r.status = "online"
      · obtain ⟨hok1, hokrest⟩ := buildRecords_cons_ok_inv opts r rest inv hok
        rw [buildRecords_cons_ok opts r rest inv hok1]
        rw [onlineNames_cons_online opts r rest hs] at hdist hdisj hch ⊢
        have hn0 : computedServername opts r ∉ inv.hosts :=
          hdisj (computedServername opts r) (by simp)
        have hc0 : (opts.group, computedServername opts r) ∉ inv.children :=
          hch (computedServername opts r) (by simp)
        obtain ⟨hH, hC, hG⟩ := applyOps_online_fresh opts r inv hs hok1 hn0 hc0
        obtain ⟨hhead, htail⟩ := List.nodup_cons.mp hdist
        have hdisj' : ∀ n ∈ onlineNames opts rest,
            n ∉ (applyOps inv (parseServer opts r).1).hosts := by
          intro n hn
          rw [hH]
          simp only [List.mem_append, List.mem_singleton]
          rintro (hmem | rfl)
          · exact hdisj n (by simp [hn]) hmem
          · exact hhead hn
        have hch' : ∀ n ∈ onlineNames opts rest,
            (opts.group, n) ∉ (applyOps inv (parseServer opts r).1).children := by
          intro n hn
          rw [hC]
          simp only [List.mem_append, List.mem_singleton, Prod.mk.injEq]
          rintro (hmem | ⟨-, rfl⟩)
          · exact hch n (by simp [hn]) hmem
          · exact hhead hn
        obtain ⟨iH, iC, iG⟩ := ih (applyOps inv (parseServer opts r).1) htail hdisj' hch' hokrest
        refine ⟨?_, ?_, ?_⟩
        · rw [iH, hH, List.append_assoc, List.singleton_append]
        · rw [iC, hC, List.append_assoc, List.singleton_append, List.map_cons]
        · rw [iG, hG]
      · have hps := parseServer_offline opts r hs
        have hstep : buildRecords opts (r :: rest) inv = buildRecords opts rest inv := by
          simp only [buildRecords, hps]
          rfl
        rw [hstep] at hok ⊢
        rw [onlineNames_cons_offline opts r rest hs] at hdist hdisj hch ⊢
        exact ih inv hdist hdisj hch hok

end BuildLemmas

section ClaimC5

/-- C5 counterexample: two online records computing the same display name
("web") build successfully, yet the sink holds a single host entry for the two
online records — not one entry per online record. -/
theorem C5_counterexample_colliding_names :
    ((parseDriver ⟨"", "", "ip", "", "netcup"⟩
        [⟨"v1", "web", "online", ["1.2.3.4"], false⟩, ⟨"v2", "web", "online", ["5.6.7.8"], false⟩]
        Inventory.empty).2 = none) ∧
    (parseDriver ⟨"", "", "ip", "", "netcup"⟩
        [⟨"v1", "web", "online", ["1.2.3.4"], false⟩, ⟨"v2", "web", "online", ["5.6.7.8"], false⟩]
        Inventory.empty).1.hosts = ["web"] ∧
    (([⟨"v1", "web", "online", ["1.2.3.4"], false⟩, ⟨"v2", "web", "online", ["5.6.7.8"], false⟩] :
        List ServerData).filter (fun s => s.status == "online")).length = 2 := by
  decide

/-- C5 amended: after a successful build over a record list whose online
records have pairwise distinct computed display names, the sink contains
exactly one host entry per online record (in input order), each host belongs
via exactly one membership pair to the configured group, and that group is the
inventory's only group — it exists even when no host was added. -/
theorem C5_amended_one_host_per_online_record (opts : Options) (records : List ServerData)
    (hdist : (onlineNames opts records).Nodup)
    (hok : (parseDriver opts records Inventory.empty).2 = none) :
    (parseDriver opts records Inventory.empty).1.hosts = onlineNames opts records ∧
    (parseDriver opts records Inventory.empty).1.children =
      (onlineNames opts records).map (fun n => (opts.group, n)) ∧
    (parseDriver opts records Inventory.empty).1.groups = [opts.group] := by
  cases records with
  | nil =>
      rw [parseDriver] at hok
      simp at hok
  | cons r rest =>
      have hstep : parseDriver opts (r :: rest) Inventory.empty =
          buildRecords opts (r :: rest) (Inventory.empty.add_group opts.group) := by
        simp [parseDriver]
      rw [hstep] at hok ⊢
      have hg : Inventory.empty.add_group opts.group =
          ⟨[opts.group], [], [], []⟩ := rfl
      rw [hg] at hok ⊢
      obtain ⟨hH, hC, hG⟩ := buildRecords_shape opts (r :: rest) ⟨[opts.group], [], [], []⟩
        hdist (by intro n hn; simp) (by intro n hn; simp) hok
      refine ⟨?_, ?_, ?_⟩
      · rw [hH]; rfl
      · rw [hC]; rfl
      · rw [hG]

theorem C5_amended_one_host_per_online_record_witness :
    (parseDriver ⟨"", "", "ip", "", "netcup"⟩
        [⟨"v1", "", "online", ["1.2.3.4"], false⟩, ⟨"v2", "web", "offline", ["5.6.7.8"], false⟩]
        Inventory.empty).1.hosts =
      onlineNames ⟨"", "", "ip", "", "netcup"⟩
        [⟨"v1", "", "online", ["1.2.3.4"], false⟩, ⟨"v2", "web", "offline", ["5.6.7.8"], false⟩] ∧
    (parseDriver ⟨"", "", "ip", "", "netcup"⟩
        [⟨"v1", "", "online", ["1.2.3.4"], false⟩, ⟨"v2", "web", "offline", ["5.6.7.8"], false⟩]
        Inventory.empty).1.children =
      (onlineNames ⟨"", "", "ip", "", "netcup"⟩
        [⟨"v1", "", "online", ["1.2.3.4"], false⟩, ⟨"v2", "web", "offline", ["5.6.7.8"], false⟩]).map
        (fun n => ("netcup", n)) ∧
    (parseDriver ⟨"", "", "ip", "", "netcup"⟩
        [⟨"v1", "", "online", ["1.2.3.4"], false⟩, ⟨"v2", "web", "offline", ["5.6.7.8"], false⟩]
        Inventory.empty).1.groups = ["netcup"] :=
  C5_amended_one_host_per_online_record ⟨"", "", "ip", "", "netcup"⟩
    [⟨"v1", "", "online", ["1.2.3.4"], false⟩, ⟨"v2", "web", "offline", ["5.6.7.8"], false⟩]
    (by decide) (by decide)

end ClaimC5
section ClaimC10

/-- After a successfully processed online record, the effective
`netcup_server_name` variable on its computed name is the record's
`vServerName`, whatever was in the sink before. -/
theorem getVar_online_server_name (opts : Options) (s : ServerData) (inv : Inventory)
    (hs : s.status = "online") (hok : (parseServer opts s).2 = none) :
    (applyOps inv (parseServer opts s).1).getVar (computedServername opts s)
      "netcup_server_name" = some (Value.str s.vServerName) := by
  by_cases hip : opts.ansible_host_type = "ip"
  · cases hips : s.ips with
    | nil =>
        rw [parseServer_online_ip_noips opts s hs hip hips] at hok
        exact absurd hok (by simp)
    | cons ip0 rest =>
        rw [parseServer_online_ip opts s hs hip ip0 rest hips]
        simp only [applyOps, List.foldl, applyOp]
        rw [getVar_add_child, getVar_set_variable_ne, getVar_set_variable_ne,
          getVar_set_variable_ne, getVar_set_variable_same]
        all_goals simp
  by_cases hname : opts.ansible_host_type = "name"
  · rw [parseServer_online_name opts s hs hname]
    simp only [applyOps, List.foldl, applyOp]
    rw [getVar_add_child, getVar_set_variable_ne, getVar_set_variable_ne,
      getVar_set_variable_ne, getVar_set_variable_same]
    all_goals simp
  by_cases hsuf : opts.ansible_host_type = "suffix"
  · cases hips : s.ips with
    | nil =>
        rw [parseServer_online_suffix_noips opts s hs hsuf hips] at hok
        exact absurd hok (by simp)
    | cons ip0 rest =>
        rw [parseServer_online_suffix opts s hs hsuf ip0 rest hips]
        simp only [applyOps, List.foldl, applyOp]
        rw [getVar_add_child, getVar_set_variable_ne, getVar_set_variable_ne,
          getVar_set_variable_ne, getVar_set_variable_same]
        all_goals simp
  · rw [parseServer_online_other opts s hs hip hname hsuf]
    simp only [applyOps, List.foldl, applyOp]
    rw [getVar_add_child, getVar_set_variable_ne, getVar_set_variable_ne,
      getVar_set_variable_ne, getVar_set_variable_same]
    all_goals simp

/-- C10: when two online records in one successful run compute the same
display name, the sink ends up with a single host entry — fewer than the two
online records — and the second record's variables overwrite the first's on
that entry. -/
theorem C10_colliding_names_overwrite (opts : Options) (r1 r2 : ServerData)
    (h1 : r1.status = "online") (h2 : r2.status = "online")
    (hname : computedServername opts r1 = computedServername opts r2)
    (hok : (parseDriver opts [r1, r2] Inventory.empty).2 = none) :
    (parseDriver opts [r1, r2] Inventory.empty).1.hosts.length = 1 ∧
    (([r1, r2].filter (fun s => s.status == "online")).length = 2) ∧
    (parseDriver opts [r1, r2] Inventory.empty).1.getVar (computedServername opts r1)
      "netcup_server_name" = some (Value.str r2.vServerName) := by
  have hstep : parseDriver opts [r1, r2] Inventory.empty =
      buildRecords opts [r1, r2] (Inventory.empty.add_group opts.group) := by
    simp [parseDriver]
  rw [hstep] at hok ⊢
  have hg : Inventory.empty.add_group opts.group = ⟨[opts.group], [], [], []⟩ := rfl
  rw [hg] at hok ⊢
  obtain ⟨hok1, hokrest⟩ := buildRecords_cons_ok_inv opts r1 [r2]
    ⟨[opts.group], [], [], []⟩ hok
  obtain ⟨hok2, -⟩ := buildRecords_cons_ok_inv opts r2 []
    (applyOps ⟨[opts.group], [], [], []⟩ (parseServer opts r1).1) hokrest
  have hbuild : buildRecords opts [r1, r2] ⟨[opts.group], [], [], []⟩ =
      (applyOps (applyOps ⟨[opts.group], [], [], []⟩ (parseServer opts r1).1)
        (parseServer opts r2).1, none) := by
    rw [buildRecords_cons_ok opts r1 [r2] ⟨[opts.group], [], [], []⟩ hok1,
      buildRecords_cons_ok opts r2 [] _ hok2, buildRecords_nil]
  rw [hbuild]
  obtain ⟨hH1, -, -⟩ := applyOps_online_fresh opts r1 ⟨[opts.group], [], [], []⟩ h1 hok1
    (by simp) (by simp)
  have hH2 : (applyOps (applyOps ⟨[opts.group], [], [], []⟩ (parseServer opts r1).1)
      (parseServer opts r2).1).hosts =
      (applyOps ⟨[opts.group], [], [], []⟩ (parseServer opts r1).1).hosts := by
    refine applyOps_online_seen opts r2 _ h2 hok2 ?_
    rw [← hname, hH1]
    simp
  refine ⟨?_, by simp [List.filter_cons, h1, h2], ?_⟩
  · rw [hH2, hH1]
    rfl
  · rw [hname]
    exact getVar_online_server_name opts r2 _ h2 hok2

theorem C10_colliding_names_overwrite_witness :
    (parseDriver ⟨"", "", "ip", "", "netcup"⟩
        [⟨"v1", "web", "online", ["1.2.3.4"], false⟩, ⟨"v2", "web", "online", ["5.6.7.8"], true⟩]
        Inventory.empty).1.hosts.length = 1 ∧
    (([⟨"v1", "web", "online", ["1.2.3.4"], false⟩, ⟨"v2", "web", "online", ["5.6.7.8"], true⟩] :
        List ServerData).filter (fun s => s.status == "online")).length = 2 ∧
    (parseDriver ⟨"", "", "ip", "", "netcup"⟩
        [⟨"v1", "web", "online", ["1.2.3.4"], false⟩, ⟨"v2", "web", "online", ["5.6.7.8"], true⟩]
        Inventory.empty).1.getVar
      (computedServername ⟨"", "", "ip", "", "netcup"⟩ ⟨"v1", "web", "online", ["1.2.3.4"], false⟩)
      "netcup_server_name" = some (Value.str "v2") :=
  C10_colliding_names_overwrite ⟨"", "", "ip", "", "netcup"⟩
    ⟨"v1", "web", "online", ["1.2.3.4"], false⟩ ⟨"v2", "web", "online", ["5.6.7.8"], true⟩
    (by decide) (by decide) (by decide) (by decide)

end ClaimC10
